import Mathlib

/-!
Verification of the appointment-booking core of `bb.py`: the booking store
(`save_appointment`, `get_appointments_for_date`, `is_slot_available`, backed
by a table with a UNIQUE(date, time, duration) constraint and NOT NULL
columns), the slot availability engine (`generate_available_slots` with its
half-hour candidate grid, operating window and Student-Location travel
buffer), and the `submit_appointment` request handler with its field
validation.

Times are the "HH:MM" strings the source manipulates; `time_to_minutes`
and `minutes_to_time` are embedded faithfully, including the possibility
that parsing a malformed stored time raises (modelled as `Option`).

The storage error model follows the source's exception structure. In both
`save_appointment` and `get_appointments_for_date` the call
`conn = get_db_connection()` precedes the `try` block, so a failure to open
the connection raises to the caller: that path is an explicit `connectFail`
flag and a `none` result. Failures inside the `try` other than
`sqlite3.IntegrityError` are the `ioFail` flag. `sqlite3.IntegrityError`
itself covers every constraint violation of the INSERT: a collision on the
UNIQUE(date, time, duration) triple, or a NULL bound to a NOT NULL column.
The handler binds `lesson_type` from `data.get('lesson_type')` with no
default and never validates it, so a missing lesson_type reaches the INSERT
as NULL; the save input type therefore carries `lesson_type : Option String`
(every other NOT NULL column is bound to a non-null value on the validated
handler path).
-/

namespace BB

/-- Split a list of characters at every occurrence of `sep`, keeping empty
segments, as Python `str.split` does for a one-character separator. -/
def splitCharAux (sep : Char) : List Char → List Char → List (List Char)
  | [], acc => [acc.reverse]
  | c :: rest, acc =>
    if c == sep then acc.reverse :: splitCharAux sep rest []
    else splitCharAux sep rest (c :: acc)

def splitChar (sep : Char) (s : String) : List String :=
  (splitCharAux sep s.toList []).map fun cs => String.mk cs

/-- Accumulate decimal digits; fails on any non-digit character. -/
def parseDigitsAux : List Char → Nat → Option Nat
  | [], acc => some acc
  | c :: rest, acc =>
    if c.isDigit then parseDigitsAux rest (acc * 10 + (c.toNat - 48))
    else none

/-- Python `int(s)` on a plain decimal string: optional sign then at least
one digit. -/
def parseInt : List Char → Option Int
  | [] => none
  | '-' :: rest =>
    if rest = [] then none else (parseDigitsAux rest 0).map fun n => -(n : Int)
  | '+' :: rest =>
    if rest = [] then none else (parseDigitsAux rest 0).map fun n => (n : Int)
  | cs => (parseDigitsAux cs 0).map fun n => (n : Int)

/-- Source `time_to_minutes`: `h, m = map(int, t.split(":")); return h*60+m`.
`none` models the exception Python raises when the string is not two
int-parseable fields. -/
def time_to_minutes (t : String) : Option Int :=
  match splitChar ':' t with
  | [hs, ms] =>
    match parseInt hs.toList, parseInt ms.toList with
    | some h, some m => some (h * 60 + m)
    | _, _ => none
  | _ => none

/-- Decimal rendering of an integer, as Python `str`/`format` does. -/
def intToString (n : Int) : String :=
  if n < 0 then "-" ++ String.mk (Nat.toDigits 10 (-n).toNat)
  else String.mk (Nat.toDigits 10 n.toNat)

/-- Python `f"{n:02d}"`: pad to width two with a leading zero. -/
def fmt02 (n : Int) : String :=
  let s := intToString n
  if s.length < 2 then "0" ++ s else s

/-- Source `minutes_to_time`: `h, m = divmod(m, 60); return f"{h:02d}:{m:02d}"`
(Python `divmod` floors, hence `Int.fdiv`/`Int.fmod`). -/
def minutes_to_time (m : Int) : String :=
  fmt02 (Int.fdiv m 60) ++ ":" ++ fmt02 (Int.fmod m 60)

/-- ASCII whitespace, as Python `str.strip()` removes at both ends. -/
def isSpaceChar (c : Char) : Bool :=
  c == ' ' || c == '\t' || c == '\n' || c == '\r' || c == '\x0b' || c == '\x0c'

/-- Python `s.strip()`: drop whitespace from both ends. Implemented
structurally over the character list so concrete instances evaluate by
plain reduction (the library trim is defined by well-founded recursion and
does not). -/
def pyStrip (s : String) : String :=
  String.mk (((s.toList.dropWhile isSpaceChar).reverse.dropWhile isSpaceChar).reverse)

/-- A persisted appointment row, with the columns the core logic reads.
Every row in the table satisfies the NOT NULL constraints, so the persisted
lesson_type is a plain string; the auto-assigned id and created_at
timestamp play no role in any claim. -/
structure Appointment where
  name : String
  email : String
  phone : String
  date : String
  time : String
  duration : Int
  lesson_type : String
deriving DecidableEq, Repr

/-- The UNIQUE(date, time, duration) constraint of the appointments table:
two rows collide when these three columns agree. -/
def sameSlot (a b : Appointment) : Bool :=
  a.date == b.date && a.time == b.time && a.duration == b.duration

def successMsg : String := "Appointment saved successfully"

def slotTakenMsg : String :=
  "This time slot is already booked. Please select a different time."

def genericFailMsg : String := "Failed to save appointment. Please try again."

/-- The `appointment` dict the handler passes to `save_appointment`:
`lesson_type` comes from `data.get('lesson_type')` with no default and no
validation, so it can be None; the remaining NOT NULL columns are bound to
non-null values by the validated handler path. -/
structure AppointmentData where
  name : String
  email : String
  phone : String
  date : String
  time : String
  duration : Int
  lesson_type : Option String
deriving DecidableEq, Repr

/-- The UNIQUE(date, time, duration) collision test between an existing row
and the data being inserted. -/
def collides (b : Appointment) (a : AppointmentData) : Bool :=
  b.date == a.date && b.time == a.time && b.duration == a.duration

/-- The row the INSERT persists when it succeeds (its lesson_type then
known to be non-null). -/
def persistRow (a : AppointmentData) (lt : String) : Appointment :=
  { name := a.name, email := a.email, phone := a.phone, date := a.date,
    time := a.time, duration := a.duration, lesson_type := lt }

/-- Source `save_appointment`: `conn = get_db_connection()` sits before the
`try`, so a connection-open failure (`connectFail`) raises to the caller
(`none`). Inside the `try`, `except sqlite3.IntegrityError` — raised by a
UNIQUE(date, time, duration) collision or by a NULL bound to a NOT NULL
column such as a missing lesson_type — yields the slot-taken message; any
other exception (`ioFail`) yields the generic message; otherwise the row is
appended and the save reports success. -/
def save_appointment (st : List Appointment) (connectFail ioFail : Bool)
    (a : AppointmentData) : Option (List Appointment × Bool × String) :=
  if connectFail then none
  else if ioFail then some (st, false, genericFailMsg)
  else
    match a.lesson_type with
    | none => some (st, false, slotTakenMsg)
    | some lt =>
      if st.any fun b => collides b a then some (st, false, slotTakenMsg)
      else some (st ++ [persistRow a lt], true, successMsg)

/-- The table contents after a `save_appointment` call: unchanged when the
call raises (a propagated exception does not commit anything). -/
def saveState (st : List Appointment) (connectFail ioFail : Bool)
    (a : AppointmentData) : List Appointment :=
  match save_appointment st connectFail ioFail a with
  | none => st
  | some r => r.1

/-- Source `get_appointments_for_date`: `conn = get_db_connection()` sits
before the `try`, so a connection-open failure (`connectFail`) raises to
the caller (`none`); a failure of the SELECT inside the `try` (`ioFail`)
is caught, logged, and returns the empty list. -/
def get_appointments_for_date (st : List Appointment) (connectFail ioFail : Bool)
    (date : String) : Option (List Appointment) :=
  if connectFail then none
  else if ioFail then some []
  else some (st.filter fun a => a.date == date)

/-- Source `is_slot_available`: SELECT id WHERE date/time/duration match,
true iff no row is found; on any exception it logs and returns False. -/
def is_slot_available (st : List Appointment) (ioFail : Bool)
    (date time : String) (duration : Int) : Bool :=
  if ioFail then false
  else !(st.any fun a => a.date == date && a.time == time && a.duration == duration)

/-- The inner loop of `generate_available_slots` over booked appointments:
`some true` when some booking overlaps the effective interval, `some false`
when none does, `none` when a stored time fails to parse before the loop
breaks (Python raises out of the function). -/
def checkOverlap (effS effE : Int) : List Appointment → Option Bool
  | [] => some false
  | b :: rest =>
    match time_to_minutes b.time with
    | none => none
    | some bStart =>
      if effS < bStart + b.duration && effE > bStart then some true
      else checkOverlap effS effE rest

/-- The candidate loop of `generate_available_slots`: window check on the
raw end, then buffer expansion with the clamp at zero, then the overlap
scan; accepted candidates keep their generation order. -/
def slotsLoop (booked : List Appointment) (dur buffer : Int) :
    List String → Option (List String)
  | [] => some []
  | start :: rest =>
    match time_to_minutes start with
    | none => none
    | some startMin =>
      let endMin := startMin + dur
      if endMin > 20 * 60 then slotsLoop booked dur buffer rest
      else
        let effS := startMin - buffer
        let effE := endMin + buffer
        let effS := if effS < 0 then 0 else effS
        match checkOverlap effS effE booked with
        | none => none
        | some true => slotsLoop booked dur buffer rest
        | some false => (slotsLoop booked dur buffer rest).map fun l => start :: l

/-- Source: `possible = [minutes_to_time(m) for m in range(8*60, 20*60, 30)]`. -/
def possibleSlots : List String :=
  (List.range 24).map fun i => minutes_to_time (8 * 60 + 30 * (i : Int))

/-- Source `generate_available_slots(date, dur, session_type)`: reads the
booked appointments for the date — a read that raises propagates out of the
engine too — applies buffer 30 for "Student Location" and 0 otherwise, then
filters the half-hour candidates. -/
def generate_available_slots (st : List Appointment) (connectFail ioFail : Bool)
    (date : String) (dur : Int) (session_type : String) : Option (List String) :=
  match get_appointments_for_date st connectFail ioFail date with
  | none => none
  | some booked =>
    let buffer : Int := if session_type == "Student Location" then 30 else 0
    slotsLoop booked dur buffer possibleSlots

/-- One booking-versus-candidate overlap test, as evaluated inside the loop:
false when the stored time does not parse (the loop would instead raise,
which the characterisation lemmas rule out by hypothesis). -/
def bOverlap (effS effE : Int) (b : Appointment) : Bool :=
  match time_to_minutes b.time with
  | none => false
  | some bStart => decide (effS < bStart + b.duration) && decide (effE > bStart)

/-- Acceptance of a single candidate start, mirroring one iteration of the
candidate loop. -/
def accept (booked : List Appointment) (dur buffer : Int) (start : String) : Bool :=
  match time_to_minutes start with
  | none => false
  | some startMin =>
    let endMin := startMin + dur
    if endMin > 20 * 60 then false
    else
      let effS := startMin - buffer
      let effE := endMin + buffer
      let effS := if effS < 0 then 0 else effS
      !(booked.any (bOverlap effS effE))

/-- A candidate passes the operating-window test iff its raw, unbuffered end
is at most 20:00. -/
def inWindow (dur : Int) (s : String) : Bool :=
  match time_to_minutes s with
  | none => false
  | some m => decide (m + dur ≤ 20 * 60)

/-- Claim-side description of the Student-Location overlap rule: the
candidate interval is expanded to [start − 30, start + duration + 30),
clamped below at 0, and tested against each existing booking's unexpanded
interval [b.start, b.start + b.duration). -/
def candidateBufferedOverlap (dur : Int) (s : String) (b : Appointment) : Bool :=
  match time_to_minutes s, time_to_minutes b.time with
  | some sm, some bm =>
    decide (max 0 (sm - 30) < bm + b.duration) && decide (sm + dur + 30 > bm)
  | _, _ => false

/-- A concrete booking occupying [10:00, 11:00) on 2025-09-28. -/
def bookingA : Appointment :=
  { name := "Alice", email := "alice@example.com", phone := "", date := "2025-09-28",
    time := "10:00", duration := 60, lesson_type := "Online" }

/-- The same booking as submitted data, with its lesson_type present. -/
def bookingData : AppointmentData :=
  { name := "Alice", email := "alice@example.com", phone := "", date := "2025-09-28",
    time := "10:00", duration := 60, lesson_type := some "Online" }

/-- Submitted data whose lesson_type is None: the handler never validates
lesson_type, so this reaches the INSERT and violates the NOT NULL
constraint rather than the uniqueness constraint. -/
def nullLessonBooking : AppointmentData :=
  { name := "Alice", email := "alice@example.com", phone := "", date := "2025-09-28",
    time := "10:00", duration := 30, lesson_type := none }

/-- The uniqueness invariant of the appointments table: no two rows agree on
the (date, time, duration) triple. -/
def uniqueTriples (st : List Appointment) : Prop :=
  st.Pairwise fun a b => sameSlot a b = false

/-- Store states reachable from the freshly initialised (empty) table by
calls to `save_appointment`, each with arbitrary connection and storage
failure outcomes and arbitrary submitted data. Reads do not change the
table, and the scope has no update or delete operation. -/
inductive Reachable : List Appointment → Prop
  | init : Reachable []
  | save (st : List Appointment) (connectFail ioFail : Bool) (a : AppointmentData)
      (h : Reachable st) : Reachable (saveState st connectFail ioFail a)

/-- The request body of POST /submit_appointment as the handler reads it:
`duration` is `data.get('duration')` (absent or non-integer collapses to
`none`, either way outside {30, 60}); `lesson_type` is
`data.get('lesson_type')` with no default, so possibly None; the string
fields use `""` for the falsy missing value `data.get(..., '')` yields. -/
structure SubmitData where
  duration : Option Int
  lesson_type : Option String
  date : String
  time : String
  email : String
  phone : String
  name : String
deriving DecidableEq, Repr

/-- The `errors` dict built by `submit_appointment`, in insertion order. -/
def validation_errors (d : SubmitData) : List (String × String) :=
  (if d.duration == some 30 || d.duration == some 60 then []
    else [("duration", "Invalid duration")]) ++
  (if d.date == "" || d.time == "" then [("datetime", "Select a day and time")]
    else []) ++
  (if d.email == "" && d.phone == ""
    then [("contact", "Provide at least email or phone")] else []) ++
  (if pyStrip d.name == "" then [("name", "Please provide your name")] else [])

/-- Source `send_booking_email`: true when the SMTP dispatch succeeds, false
when any exception is caught (`emailFail`). -/
def send_booking_email (emailFail : Bool) : Bool := !emailFail

/-- The four response shapes of the handler: the 400 with per-field errors,
the 400 from the availability pre-check, the 400 carrying the store's
failure message, and the success payload echoing the submitted dict. -/
inductive SubmitOutcome where
  | validationFailed (errors : List (String × String))
  | slotUnavailable (msg : String)
  | saveFailed (msg : String)
  | success (appt : AppointmentData) (msg : String) (emailSent : Bool)
deriving DecidableEq, Repr

def isValidationFailure : SubmitOutcome → Bool
  | .validationFailed _ => true
  | _ => false

/-- Source `submit_appointment`: field validation, then the availability
pre-check, then the save; an exception raised by the save propagates out of
the handler (`none`); the notification is dispatched only after a
successful save. Returns the resulting table, the response, and whether the
notification was dispatched at all. -/
def submit_appointment (st : List Appointment)
    (readFail wConnectFail writeFail emailFail : Bool) (d : SubmitData) :
    Option (List Appointment × SubmitOutcome × Bool) :=
  let errors := validation_errors d
  if errors ≠ [] then some (st, .validationFailed errors, false)
  else
    let dur := d.duration.getD 0
    if !(is_slot_available st readFail d.date d.time dur) then
      some (st, .slotUnavailable slotTakenMsg, false)
    else
      let appt : AppointmentData :=
        { name := pyStrip d.name, email := d.email, phone := d.phone, date := d.date,
          time := d.time, duration := dur, lesson_type := d.lesson_type }
      match save_appointment st wConnectFail writeFail appt with
      | none => none
      | some res =>
        if res.2.1 then
          some (res.1, .success appt res.2.2 (send_booking_email emailFail), true)
        else some (res.1, .saveFailed res.2.2, false)

/-- Claim-side list of the defects the validation step is said to reject:
duration outside {30, 60}, missing date or time, both contact fields empty,
or a name that trims to empty. -/
def hasValidationDefect (d : SubmitData) : Bool :=
  (!(d.duration == some 30) && !(d.duration == some 60)) || d.date == "" ||
    d.time == "" || (d.email == "" && d.phone == "") || pyStrip d.name == ""

/-- A request that is valid in every field except its duration of 45. -/
def invalidDurationRequest : SubmitData :=
  { duration := some 45, lesson_type := some "Online", date := "2025-09-28",
    time := "10:00", email := "alice@example.com", phone := "", name := "Alice" }

/-- A request that passes validation but omits lesson_type. -/
def nullLessonRequest : SubmitData :=
  { duration := some 30, lesson_type := none, date := "2025-09-28",
    time := "10:00", email := "alice@example.com", phone := "", name := "Alice" }

lemma checkOverlap_eq (effS effE : Int) (booked : List Appointment)
    (h : ∀ b ∈ booked, (time_to_minutes b.time).isSome) :
    checkOverlap effS effE booked = some (booked.any (bOverlap effS effE)) := by
  induction booked with
  | nil => rfl
  | cons b rest ih =>
    obtain ⟨bs, hbs⟩ := Option.isSome_iff_exists.mp (h b (List.mem_cons_self b rest))
    have ih' := ih fun x hx => h x (List.mem_cons_of_mem b hx)
    by_cases hc : (decide (effS < bs + b.duration) && decide (effE > bs)) = true
    · simp [checkOverlap, hbs, hc, bOverlap]
    · simp only [Bool.not_eq_true] at hc
      simp [checkOverlap, hbs, hc, bOverlap, ih']

lemma slotsLoop_eq (booked : List Appointment) (dur buffer : Int)
    (hb : ∀ b ∈ booked, (time_to_minutes b.time).isSome) :
    ∀ cands : List String, (∀ c ∈ cands, (time_to_minutes c).isSome) →
      slotsLoop booked dur buffer cands = some (cands.filter (accept booked dur buffer)) := by
  intro cands
  induction cands with
  | nil => intro _; rfl
  | cons start rest ih =>
    intro hc
    obtain ⟨sm, hsm⟩ := Option.isSome_iff_exists.mp (hc start (List.mem_cons_self start rest))
    have ih' := ih fun x hx => hc x (List.mem_cons_of_mem start hx)
    rw [List.filter_cons]
    by_cases hw : (sm + dur > 20 * 60)
    · have hl : slotsLoop booked dur buffer (start :: rest) =
          slotsLoop booked dur buffer rest := by
        rw [slotsLoop]
        simp only [hsm, if_pos hw]
      have ha : accept booked dur buffer start = false := by
        unfold accept
        simp only [hsm, if_pos hw]
      rw [hl, ih', ha]
      simp
    · have hover := checkOverlap_eq (if sm - buffer < 0 then 0 else sm - buffer)
        (sm + dur + buffer) booked hb
      by_cases hany : (booked.any
          (bOverlap (if sm - buffer < 0 then 0 else sm - buffer) (sm + dur + buffer))) = true
      · have hl : slotsLoop booked dur buffer (start :: rest) =
            slotsLoop booked dur buffer rest := by
          rw [slotsLoop]
          simp only [hsm, if_neg hw, hover, hany]
        have ha : accept booked dur buffer start = false := by
          unfold accept
          simp only [hsm, if_neg hw, hany, Bool.not_true]
        rw [hl, ih', ha]
        simp
      · simp only [Bool.not_eq_true] at hany
        have hl : slotsLoop booked dur buffer (start :: rest) =
            (slotsLoop booked dur buffer rest).map fun l => start :: l := by
          rw [slotsLoop]
          simp only [hsm, if_neg hw, hover, hany]
        have ha : accept booked dur buffer start = true := by
          unfold accept
          simp only [hsm, if_neg hw, hany, Bool.not_false]
        rw [hl, ih', ha]
        simp

lemma possibleSlots_parse : ∀ c ∈ possibleSlots, (time_to_minutes c).isSome := by decide

lemma generate_eq (st : List Appointment) (cf iof : Bool) (date : String) (dur : Int)
    (typ : String) (bs : List Appointment)
    (hread : get_appointments_for_date st cf iof date = some bs)
    (hb : ∀ b ∈ bs, (time_to_minutes b.time).isSome) :
    generate_available_slots st cf iof date dur typ =
      some (possibleSlots.filter
        (accept bs dur (if typ == "Student Location" then 30 else 0))) := by
  unfold generate_available_slots
  rw [hread]
  exact slotsLoop_eq bs dur _ hb possibleSlots possibleSlots_parse

lemma accept_nil (dur buffer : Int) : accept [] dur buffer = inWindow dur := by
  funext s
  unfold accept inWindow
  cases htm : time_to_minutes s with
  | none => rfl
  | some m =>
    simp only [List.any_nil, Bool.not_false]
    by_cases hw : (m + dur > 20 * 60)
    · rw [if_pos hw, decide_eq_false (by omega : ¬ m + dur ≤ 20 * 60)]
    · rw [if_neg hw, decide_eq_true (by omega : m + dur ≤ 20 * 60)]

lemma generate_no_bookings (st : List Appointment) (cf iof : Bool) (date : String)
    (dur : Int) (typ : String)
    (h : get_appointments_for_date st cf iof date = some []) :
    generate_available_slots st cf iof date dur typ =
      some (possibleSlots.filter (inWindow dur)) := by
  rw [generate_eq st cf iof date dur typ [] h (by simp), accept_nil]

lemma clamp_eq_max (x : Int) : (if x < 0 then 0 else x) = max 0 x := by
  rcases lt_or_le x 0 with h | h
  · rw [if_pos h]
    exact (max_eq_left h.le).symm
  · rw [if_neg (not_lt.mpr h)]
    exact (max_eq_right h).symm

lemma accept_studentLocation (booked : List Appointment) (dur : Int) (s : String) :
    accept booked dur 30 s =
      (inWindow dur s && !(booked.any (candidateBufferedOverlap dur s))) := by
  unfold accept inWindow
  cases hsm : time_to_minutes s with
  | none => rfl
  | some sm =>
    by_cases hw : (sm + dur > 20 * 60)
    · simp only [if_pos hw, decide_eq_false (by omega : ¬ sm + dur ≤ 20 * 60),
        Bool.false_and]
    · simp only [if_neg hw, decide_eq_true (by omega : sm + dur ≤ 20 * 60),
        Bool.true_and]
      have hfun : bOverlap (if sm - 30 < 0 then 0 else sm - 30) (sm + dur + 30) =
          candidateBufferedOverlap dur s := by
        funext b
        unfold bOverlap candidateBufferedOverlap
        cases hbm : time_to_minutes b.time with
        | none => simp only [hsm]
        | some bm =>
          simp only [hsm]
          rw [clamp_eq_max]
      rw [hfun]

lemma reachable_uniqueTriples : ∀ st, Reachable st → uniqueTriples st := by
  intro st h
  induction h with
  | init => exact List.Pairwise.nil
  | save st cf iof a _ ih =>
    by_cases hcf : cf
    · simpa [saveState, save_appointment, hcf] using ih
    · by_cases hio : iof
      · simpa [saveState, save_appointment, hcf, hio] using ih
      · cases hlt : a.lesson_type with
        | none => simpa [saveState, save_appointment, hcf, hio, hlt] using ih
        | some lt =>
          by_cases hany : (st.any fun b => collides b a) = true
          · simpa [saveState, save_appointment, hcf, hio, hlt, hany] using ih
          · simp only [Bool.not_eq_true] at hany
            have hall : ∀ b ∈ st, collides b a = false := by
              intro b hb
              by_contra hbad
              rw [List.any_eq_false] at hany
              exact hany b hb (by simpa using hbad)
            have hst : saveState st cf iof a = st ++ [persistRow a lt] := by
              simp [saveState, save_appointment, hcf, hio, hlt, hany]
            rw [hst]
            unfold uniqueTriples at ih ⊢
            rw [List.pairwise_append]
            refine ⟨ih, List.pairwise_singleton _ _, ?_⟩
            intro x hx y hy
            have hy' : y = persistRow a lt := by simpa using hy
            subst hy'
            show sameSlot x (persistRow a lt) = false
            have hsame : sameSlot x (persistRow a lt) = collides x a := rfl
            rw [hsame]
            exact hall x hx

lemma validation_errors_ne_nil (d : SubmitData) :
    (validation_errors d ≠ []) ↔ hasValidationDefect d = true := by
  unfold validation_errors hasValidationDefect
  by_cases h1 : (d.duration == some 30 || d.duration == some 60) = true <;>
    by_cases h2 : (d.date == "" : Bool) = true <;>
    by_cases h3 : (d.time == "" : Bool) = true <;>
    by_cases h4 : (d.email == "" && d.phone == "") = true <;>
    by_cases h5 : (pyStrip d.name == "" : Bool) = true <;>
    simp_all <;> tauto

/-- C1: in every reachable store state no two persisted appointments share
the (date, time, duration) triple, and a save whose triple collides with an
existing row never succeeds — whichever failure mode the storage takes —
and leaves the stored rows unchanged. -/
theorem C1_store_uniqueness_invariant :
    (∀ st, Reachable st → uniqueTriples st) ∧
    (∀ (st : List Appointment) (cf iof : Bool) (a : AppointmentData),
      (∃ b ∈ st, collides b a = true) →
      saveState st cf iof a = st ∧
        (save_appointment st cf iof a).elim True fun r => r.2.1 = false) := by
  refine ⟨reachable_uniqueTriples, ?_⟩
  intro st cf iof a hcol
  obtain ⟨b, hb, hs⟩ := hcol
  have hany : (st.any fun b => collides b a) = true := List.any_eq_true.mpr ⟨b, hb, hs⟩
  cases hlt : a.lesson_type with
  | none =>
    by_cases hcf : cf <;> by_cases hio : iof <;>
      simp [saveState, save_appointment, hcf, hio, hlt]
  | some lt =>
    by_cases hcf : cf <;> by_cases hio : iof <;>
      simp [saveState, save_appointment, hcf, hio, hlt, hany]

/-- C1 witness: the singleton store reached by one successful save, and a
colliding second save of the very same slot failing without a change. -/
theorem C1_store_uniqueness_invariant_witness :
    uniqueTriples [bookingA] ∧
    saveState [bookingA] false false bookingData = [bookingA] ∧
    ((save_appointment [bookingA] false false bookingData).elim True
      fun r => r.2.1 = false) :=
  ⟨C1_store_uniqueness_invariant.1 (saveState [] false false bookingData)
      (Reachable.save [] false false bookingData Reachable.init),
    (C1_store_uniqueness_invariant.2 [bookingA] false false bookingData
      ⟨bookingA, by decide, by decide⟩).1,
    (C1_store_uniqueness_invariant.2 [bookingA] false false bookingData
      ⟨bookingA, by decide, by decide⟩).2⟩

/-- C2 counterexample: a save whose lesson_type is None on an empty store
gets the slot-taken message from the IntegrityError handler although no
(date, time, duration) collision exists, and through the handler the same
request reports the slot-taken text as its database error on a free slot —
so the slot-taken error is not returned exactly on uniqueness violations. -/
theorem C2_save_error_discrimination_counterexample :
    save_appointment [] false false nullLessonBooking = some ([], false, slotTakenMsg) ∧
    (([] : List Appointment).any fun b => collides b nullLessonBooking) = false ∧
    submit_appointment [] false false false false nullLessonRequest =
      some ([], SubmitOutcome.saveFailed slotTakenMsg, false) := by
  decide

/-- C2 amended: the slot-taken message is returned exactly when the INSERT
raises sqlite3.IntegrityError — a (date, time, duration) collision or a
NULL in a NOT NULL column, in particular a missing lesson_type — and the
save succeeds exactly otherwise; a non-constraint failure inside the try
yields the generic message, while a connection-open failure raises to the
caller instead of returning any message; the messages are distinguishable
where the claim needs them to be. -/
theorem C2_save_error_discrimination_amended :
    ∀ (st : List Appointment) (a : AppointmentData),
      (((save_appointment st false false a).map fun r => r.2.2) = some slotTakenMsg ↔
        (a.lesson_type.isNone || st.any fun b => collides b a) = true) ∧
      (((save_appointment st false false a).map fun r => r.2.1) = some true ↔
        (a.lesson_type.isNone || st.any fun b => collides b a) = false) ∧
      save_appointment st false true a = some (st, false, genericFailMsg) ∧
      (∀ iof : Bool, save_appointment st true iof a = none) ∧
      (slotTakenMsg ≠ genericFailMsg ∧ slotTakenMsg ≠ successMsg) := by
  intro st a
  refine ⟨?_, ?_, rfl, fun iof => rfl, by decide, by decide⟩
  · cases hlt : a.lesson_type with
    | none => simp [save_appointment, hlt]
    | some lt =>
      by_cases hany : (st.any fun b => collides b a) = true
      · simp [save_appointment, hlt, hany]
      · simp only [Bool.not_eq_true] at hany
        have hsave : save_appointment st false false a =
            some (st ++ [persistRow a lt], true, successMsg) := by
          simp [save_appointment, hlt, hany]
        rw [hsave]
        constructor
        · intro hmsg
          exact absurd (show successMsg = slotTakenMsg from Option.some.inj hmsg)
            (by decide)
        · intro hrhs
          simp [hany] at hrhs
  · cases hlt : a.lesson_type with
    | none => simp [save_appointment, hlt]
    | some lt =>
      by_cases hany : (st.any fun b => collides b a) = true
      · simp [save_appointment, hlt, hany]
      · simp only [Bool.not_eq_true] at hany
        simp [save_appointment, hlt, hany]

/-- C3: for session type "Student Location" the engine expands only the
candidate interval to [start − 30, start + duration + 30) (clamped at 0) and
tests it against each existing booking's unexpanded interval; concretely,
with one booking occupying [10:00, 11:00), a duration-30 Student-Location
query excludes the candidate 11:00. -/
theorem C3_one_sided_student_location_buffer :
    (∀ (st : List Appointment) (date : String) (dur : Int) (bs : List Appointment),
      get_appointments_for_date st false false date = some bs →
      (∀ b ∈ bs, (time_to_minutes b.time).isSome) →
      generate_available_slots st false false date dur "Student Location" =
        some (possibleSlots.filter fun s => inWindow dur s &&
          !(bs.any (candidateBufferedOverlap dur s)))) ∧
    "11:00" ∉ (generate_available_slots [bookingA] false false "2025-09-28" 30
      "Student Location").getD [] := by
  constructor
  · intro st date dur bs hread hb
    rw [generate_eq st false false date dur "Student Location" bs hread hb]
    rw [show (if ("Student Location" : String) == "Student Location" then (30 : Int) else 0)
        = 30 from by decide]
    congr 1
    exact List.filter_congr fun s _ => accept_studentLocation bs dur s
  · decide

/-- C3 witness: the general characterisation applied to the concrete store
holding `bookingA`. -/
theorem C3_one_sided_student_location_buffer_witness :
    generate_available_slots [bookingA] false false "2025-09-28" 30 "Student Location" =
      some (possibleSlots.filter fun s => inWindow 30 s &&
        !(([bookingA]).any (candidateBufferedOverlap 30 s))) :=
  C3_one_sided_student_location_buffer.1 [bookingA] "2025-09-28" 30 [bookingA]
    (by decide) (by decide)

/-- C4: with one booking occupying [10:00, 11:00) and an Online (buffer 0)
query of duration 30, the half-open overlap test excludes 10:00 and 10:30
but keeps 09:30 (ends exactly at the booking's start) and 11:00 (starts
exactly at the booking's end). -/
theorem C4_half_open_boundaries :
    (generate_available_slots [bookingA] false false "2025-09-28" 30 "Online").isSome
      = true ∧
    "10:00" ∉ (generate_available_slots [bookingA] false false "2025-09-28" 30
      "Online").getD [] ∧
    "10:30" ∉ (generate_available_slots [bookingA] false false "2025-09-28" 30
      "Online").getD [] ∧
    "09:30" ∈ (generate_available_slots [bookingA] false false "2025-09-28" 30
      "Online").getD [] ∧
    "11:00" ∈ (generate_available_slots [bookingA] false false "2025-09-28" 30
      "Online").getD [] := by
  decide

/-- C5: on a date with no stored bookings, a duration-60 query of any session
type returns exactly the half-hour-aligned starts 08:00 through 19:00, in
ascending order. -/
theorem C5_empty_day_duration_60 :
    ∀ (st : List Appointment) (date typ : String),
      get_appointments_for_date st false false date = some [] →
      generate_available_slots st false false date 60 typ =
        some ["08:00", "08:30", "09:00", "09:30", "10:00", "10:30", "11:00", "11:30",
          "12:00", "12:30", "13:00", "13:30", "14:00", "14:30", "15:00", "15:30",
          "16:00", "16:30", "17:00", "17:30", "18:00", "18:30", "19:00"] := by
  intro st date typ h
  rw [generate_no_bookings st false false date 60 typ h]
  decide

/-- C5 witness: the empty store on a concrete date. -/
theorem C5_empty_day_duration_60_witness :
    generate_available_slots [] false false "2025-09-28" 60 "Online" =
      some ["08:00", "08:30", "09:00", "09:30", "10:00", "10:30", "11:00", "11:30",
        "12:00", "12:30", "13:00", "13:30", "14:00", "14:30", "15:00", "15:30",
        "16:00", "16:30", "17:00", "17:30", "18:00", "18:30", "19:00"] :=
  C5_empty_day_duration_60 [] "2025-09-28" "Online" rfl

/-- C6: the handler returns per-field validation errors exactly when the
request has one of the listed defects; on such a rejection it returns the
error map before any database or email step, so the store is unchanged and
no notification is dispatched; and the validation step reads every field
except lesson_type, so any lesson_type value passes it. -/
theorem C6_validation_rejects_exactly :
    ∀ (st : List Appointment) (readFail wConnectFail writeFail emailFail : Bool)
      (d : SubmitData),
      ((submit_appointment st readFail wConnectFail writeFail emailFail d).elim false
        (fun r => isValidationFailure r.2.1) = hasValidationDefect d) ∧
      (hasValidationDefect d = true →
        submit_appointment st readFail wConnectFail writeFail emailFail d =
          some (st, SubmitOutcome.validationFailed (validation_errors d), false)) ∧
      (∀ lt : Option String, validation_errors { d with lesson_type := lt } =
        validation_errors d) := by
  intro st rf wcf wf ef d
  by_cases hdef : hasValidationDefect d = true
  · have hne : validation_errors d ≠ [] := (validation_errors_ne_nil d).mpr hdef
    refine ⟨?_, fun _ => ?_, fun lt => rfl⟩
    · simp [submit_appointment, hne, isValidationFailure, hdef]
    · simp [submit_appointment, hne]
  · have hnil : validation_errors d = [] := by
      by_contra hne
      exact hdef ((validation_errors_ne_nil d).mp hne)
    simp only [Bool.not_eq_true] at hdef
    refine ⟨?_, fun hcontra => by simp [hcontra] at hdef, fun lt => rfl⟩
    rw [hdef]
    simp only [submit_appointment, hnil, ne_eq, not_true_eq_false, if_false]
    by_cases hslot : is_slot_available st rf d.date d.time (d.duration.getD 0) = true
    · simp only [hslot, Bool.not_true, Bool.false_eq_true, if_false]
      cases hsave : save_appointment st wcf wf
        { name := pyStrip d.name, email := d.email, phone := d.phone, date := d.date,
          time := d.time, duration := d.duration.getD 0,
          lesson_type := d.lesson_type } with
      | none => simp [hsave]
      | some res =>
        by_cases hok : res.2.1 = true
        · simp [hsave, hok, isValidationFailure]
        · simp only [Bool.not_eq_true] at hok
          simp [hsave, hok, isValidationFailure]
    · simp only [Bool.not_eq_true] at hslot
      simp [hslot, isValidationFailure]

/-- C6 witness: a request with duration 45 and otherwise valid fields is
rejected by validation with the store unchanged and nothing dispatched. -/
theorem C6_validation_rejects_exactly_witness :
    ((submit_appointment [] false false false false invalidDurationRequest).elim false
      (fun r => isValidationFailure r.2.1) = hasValidationDefect invalidDurationRequest) ∧
    submit_appointment [] false false false false invalidDurationRequest =
      some ([], SubmitOutcome.validationFailed (validation_errors invalidDurationRequest),
        false) :=
  ⟨(C6_validation_rejects_exactly [] false false false false invalidDurationRequest).1,
    (C6_validation_rejects_exactly [] false false false false invalidDurationRequest).2.1
      (by decide)⟩

/-- C7 counterexample: when the storage read fails, `is_slot_available`
returns false even though the store (here empty) contains no appointment
matching the queried triple, so the claimed iff fails in that case. -/
theorem C7_pre_check_counterexample :
    is_slot_available [] true "2025-09-28" "10:00" 30 = false ∧
    (([] : List Appointment).any fun a =>
      a.date == "2025-09-28" && a.time == "10:00" && a.duration == 30) = false := by
  decide

/-- C7 amended: `is_slot_available` returns true iff the read succeeds and
no stored appointment matches the (date, time, duration) arguments; on a
read failure it returns false (fail-closed), not the claimed
content-dependent answer. -/
theorem C7_pre_check_amended :
    ∀ (st : List Appointment) (ioFail : Bool) (date time : String) (dur : Int),
      is_slot_available st ioFail date time dur = true ↔
        (ioFail = false ∧
          ¬ ∃ a ∈ st, a.date = date ∧ a.time = time ∧ a.duration = dur) := by
  intro st ioFail date time dur
  cases ioFail
  · simp [is_slot_available, List.any_eq_true, and_assoc]
  · simp [is_slot_available]

/-- C8 counterexample: the connection is opened before the `try`, so a
connection-open failure propagates out of `get_appointments_for_date`
(modelled as `none`) instead of returning the empty list, and the
availability query over that read propagates the exception too instead of
treating the day as fully free — so the read can raise to its caller. -/
theorem C8_fail_open_reads_counterexample :
    get_appointments_for_date [] true false "2025-09-28" = none ∧
    generate_available_slots [] true false "2025-09-28" 60 "Online" = none := by
  decide

/-- C8 amended: a failure of the SELECT inside the `try` is caught and
returns the empty list, and an availability query over such a failure
returns every candidate inside the operating window as if the day were
fully free; but the connection-open call precedes the `try`, so a
connection failure raises to the caller (and out of the engine) rather
than returning the empty list. -/
theorem C8_fail_open_reads_amended :
    (∀ (st : List Appointment) (date : String),
      get_appointments_for_date st false true date = some []) ∧
    (∀ (st : List Appointment) (date : String) (dur : Int) (typ : String),
      generate_available_slots st false true date dur typ =
        some (possibleSlots.filter (inWindow dur))) ∧
    (∀ (st : List Appointment) (iof : Bool) (date : String),
      get_appointments_for_date st true iof date = none) ∧
    (∀ (st : List Appointment) (iof : Bool) (date : String) (dur : Int) (typ : String),
      generate_available_slots st true iof date dur typ = none) := by
  refine ⟨fun st date => rfl, fun st date dur typ => ?_, fun st iof date => rfl,
    fun st iof date dur typ => rfl⟩
  exact generate_no_bookings st false true date dur typ rfl

/-- C9: a successfully saved appointment is returned, with every submitted
field (name, email, phone, date, time, duration, and the present
lesson_type) unchanged, by a subsequent read of its date. -/
theorem C9_save_round_trip :
    ∀ (st : List Appointment) (cf iof : Bool) (a : AppointmentData) (lt : String)
      (r : List Appointment × Bool × String),
      a.lesson_type = some lt →
      save_appointment st cf iof a = some r →
      r.2.1 = true →
      persistRow a lt ∈ (get_appointments_for_date r.1 false false a.date).getD [] := by
  intro st cf iof a lt r hlt hsave hok
  by_cases hcf : cf
  · simp [save_appointment, hcf] at hsave
  · by_cases hio : iof
    · have hr : r = (st, false, genericFailMsg) := by
        simpa [save_appointment, hcf, hio] using hsave.symm
      rw [hr] at hok
      simp at hok
    · by_cases hany : (st.any fun b => collides b a) = true
      · have hr : r = (st, false, slotTakenMsg) := by
          simpa [save_appointment, hcf, hio, hlt, hany] using hsave.symm
        rw [hr] at hok
        simp at hok
      · simp only [Bool.not_eq_true] at hany
        have hr : r = (st ++ [persistRow a lt], true, successMsg) := by
          simpa [save_appointment, hcf, hio, hlt, hany] using hsave.symm
        rw [hr]
        unfold get_appointments_for_date
        simp [persistRow]

/-- C9 witness: saving a concrete appointment into the empty store and
reading its date back. -/
theorem C9_save_round_trip_witness :
    persistRow bookingData "Online" ∈
      (get_appointments_for_date [bookingA] false false bookingData.date).getD [] :=
  C9_save_round_trip [] false false bookingData "Online"
    ([bookingA], true, successMsg) rfl (by decide) rfl

/-- C10: exceeding the operating window is judged on the raw, unbuffered end
alone: on a booking-free date every candidate with start + duration ≤ 20:00
is returned for every session type, and in particular a Student-Location
query of duration 60 still returns 19:00 although its buffered interval
reaches 20:30. -/
theorem C10_window_ignores_buffer :
    (∀ (st : List Appointment) (date typ : String) (dur : Int),
      get_appointments_for_date st false false date = some [] →
      generate_available_slots st false false date dur typ =
        some (possibleSlots.filter (inWindow dur))) ∧
    "19:00" ∈ possibleSlots.filter (inWindow 60) ∧
    (∀ (st : List Appointment) (date : String),
      get_appointments_for_date st false false date = some [] →
      "19:00" ∈ (generate_available_slots st false false date 60
        "Student Location").getD []) := by
  refine ⟨fun st date typ dur h => generate_no_bookings st false false date dur typ h,
    by decide, fun st date h => ?_⟩
  rw [generate_no_bookings st false false date 60 "Student Location" h]
  decide

/-- C10 witness: the empty store on a concrete date. -/
theorem C10_window_ignores_buffer_witness :
    generate_available_slots [] false false "2025-09-28" 60 "Teacher Location" =
      some (possibleSlots.filter (inWindow 60)) ∧
    "19:00" ∈ (generate_available_slots [] false false "2025-09-28" 60
      "Student Location").getD [] :=
  ⟨C10_window_ignores_buffer.1 [] "2025-09-28" "Teacher Location" 60 rfl,
    C10_window_ignores_buffer.2.2 [] "2025-09-28" rfl⟩

end BB
